import Mathlib

/-!
# Verification of the kas widget-runtime core (menu widgets, windows, layout rules)

Shallow embedding of the repository's widget code:

* `src/src/widget/menu.rs` — `MenuButton`, `SubMenu`, `MenuBar` (their `handle`
  and `send` implementations are translated function-by-function below);
* `src/src/widget/window.rs` — `SimpleWindow`/`MessageBox` child access and the
  `configure_widgets`/`resize` assertion discipline;
* parts of the kas core crate (`Manager`, `SizeRules`, widget-id assignment,
  the `List`/`Column` container's `send`) are not present under `src/`: those
  are modelled from the specification, and each such definition carries a
  doc comment starting `Modelled from the spec:`.

Machine integers: widget ids and window ids are `Nat`; coordinates are `Int`
(the source's `i32` arithmetic here never approaches overflow and the claims
are not about wrapping).  Panicking code (`assert_eq!`, `unimplemented!`) is
embedded with `Except Unit`.
-/

namespace Kas

/-! ## Geometry -/

/-- Integer coordinate, from kas `Coord` (`i32` pair). -/
structure Coord where
  x : Int
  y : Int
deriving DecidableEq

/-- Axis-aligned rectangle, from kas `Rect { pos, size }`. -/
structure Rect where
  pos : Coord
  size : Coord
deriving DecidableEq

/-- `Rect::contains`: `pos ≤ coord < pos + size` componentwise. -/
def Rect.contains (r : Rect) (c : Coord) : Bool :=
  decide (r.pos.x ≤ c.x ∧ c.x < r.pos.x + r.size.x ∧
          r.pos.y ≤ c.y ∧ c.y < r.pos.y + r.size.y)

/-! ## Events and responses -/

/-- A pointer press source (kas `PressSource`): its identity plus whether it
is a primary source (left mouse button / first touch). -/
structure PressSource where
  key : Nat
  primary : Bool
deriving DecidableEq

/-- `PressSource::is_primary`. -/
def PressSource.isPrimary (s : PressSource) : Bool := s.primary

/-- kas `event::GrabMode` (only `Grab` is used by the menu code). -/
inductive GrabMode where
  | grab
deriving DecidableEq

/-- kas `Direction` (only `Down` is used by the menu code). -/
inductive Direction where
  | down
deriving DecidableEq

/-- kas `event::Event`, restricted to the variants the embedded widgets
inspect.  Field shapes follow the source: `PressStart` carries a definite
`start_id` while `PressMove`/`PressEnd` carry optional current/end ids. -/
inductive Event where
  | none
  | activate
  | openPopup
  | handleUpdate (payload : Nat)
  | pressStart (source : PressSource) (startId : Nat) (coord : Coord)
  | pressMove (source : PressSource) (curId : Option Nat) (coord delta : Coord)
  | pressEnd (source : PressSource) (endId : Option Nat) (coord : Coord)
deriving DecidableEq

/-- kas `event::Response<M>`. -/
inductive Response (M : Type) where
  | none
  | msg (m : M)
  | unhandled (e : Event)
  | close

/-- `Response::is_msg`. -/
def Response.isMsg {M : Type} : Response M → Bool
  | .msg _ => true
  | _ => false

/-! ## The event Manager (modelled from the spec)

The kas `event::Manager` is not part of `src/`; the menu widgets only call
into it.  The state and the operations used by the widget code are modelled
from spec §3 (ManagerState) and §4.3 (grab and popup transitions). -/

/-- kas `Popup`: `{ id, parent, direction }` (spec §3). -/
structure Popup where
  id : Nat
  parent : Nat
  direction : Direction
deriving DecidableEq

/-- Modelled from the spec: `ManagerState` (§3) — the current pointer grabs
(source → grabbing widget id and mode), the grab-depress highlight targets,
the active popup stack (window id paired with the `Popup` descriptor), the
next fresh window id, and the press-focus id set by `set_press_focus`. -/
structure Mgr where
  grabs : List (PressSource × Nat × GrabMode)
  depress : List (PressSource × Option Nat)
  popups : List (Nat × Popup)
  nextWin : Nat
  pressFocus : Option Nat

/-- The manager state at startup: no grabs, no popups. -/
def Mgr.empty : Mgr :=
  { grabs := [], depress := [], popups := [], nextWin := 0, pressFocus := Option.none }

/-- The grab entry for a source, if any. -/
def Mgr.findGrab (mgr : Mgr) (s : PressSource) : Option (PressSource × Nat × GrabMode) :=
  mgr.grabs.find? (fun g => decide (g.1 = s))

/-- Modelled from the spec: `Manager::request_grab` (§4.3) — "succeeds only
if the source has no existing grab; installs `grab(source, widget, mode)`.
Fails silently (returns false) otherwise."  The press coordinate is accepted
(as in the source's call sites) but does not affect grab bookkeeping. -/
def Mgr.requestGrab (mgr : Mgr) (widget : Nat) (s : PressSource) (_coord : Coord)
    (mode : GrabMode) : Bool × Mgr :=
  match mgr.findGrab s with
  | Option.some _ => (false, mgr)
  | Option.none => (true, { mgr with grabs := mgr.grabs ++ [(s, widget, mode)] })

/-- Modelled from the spec: grab release — "until `PressEnd` releases the
grab unconditionally" (§4.3). -/
def Mgr.releaseGrab (mgr : Mgr) (s : PressSource) : Mgr :=
  { mgr with grabs := mgr.grabs.filter (fun g => !decide (g.1 = s)) }

/-- Modelled from the spec: `Manager::set_grab_depress` (§4.3) — "updates the
visual pressed highlight target without changing ownership".  Keyed update of
the depress association. -/
def Mgr.setGrabDepress (mgr : Mgr) (s : PressSource) (t : Option Nat) : Mgr :=
  { mgr with depress := (s, t) :: mgr.depress.filter (fun d => !decide (d.1 = s)) }

/-- Modelled from the spec: `Manager::add_popup` (§4.3) — "pushes onto the
stack and returns a window id". -/
def Mgr.addPopup (mgr : Mgr) (p : Popup) : Nat × Mgr :=
  (mgr.nextWin,
   { mgr with popups := mgr.popups ++ [(mgr.nextWin, p)], nextWin := mgr.nextWin + 1 })

/-- Modelled from the spec: `Manager::close_window` (§4.3) — "pops it"
(removes the popup entry with the given window id from the stack). -/
def Mgr.closeWindow (mgr : Mgr) (wid : Nat) : Mgr :=
  { mgr with popups := mgr.popups.filter (fun q => !decide (q.1 = wid)) }

/-- Modelled from the spec: `Manager::set_press_focus`, called by
`MenuBar::handle` — recorded as manager state; the spec attaches no further
semantics the menu claims depend on. -/
def Mgr.setPressFocus (mgr : Mgr) (t : Option Nat) : Mgr :=
  { mgr with pressFocus := t }

/-! ## Grab exclusivity (claim C3)

The reachable-state argument: starting from `Mgr.empty`, any sequence of
grab requests and releases keeps at most one grab entry per source. -/

/-- A grab-affecting manager operation. -/
inductive GrabOp where
  | request (widget : Nat) (s : PressSource) (c : Coord) (m : GrabMode)
  | release (s : PressSource)

/-- Apply one grab operation. -/
def applyGrabOp (mgr : Mgr) : GrabOp → Mgr
  | .request w s c m => (mgr.requestGrab w s c m).2
  | .release s => mgr.releaseGrab s

/-- Apply a sequence of grab operations to the startup state. -/
def applyGrabOps (ops : List GrabOp) : Mgr :=
  ops.foldl applyGrabOp Mgr.empty

/-- Number of grab entries held for source `s`. -/
def grabCount (mgr : Mgr) (s : PressSource) : Nat :=
  (mgr.grabs.filter (fun g => decide (g.1 = s))).length

/-- A concrete manager state holding one grab, for the C3 witness. -/
def mgrHolding : Mgr :=
  (Mgr.empty.requestGrab 5 ⟨0, true⟩ ⟨0, 0⟩ GrabMode.grab).2

/-! ## The menu widgets (`src/src/widget/menu.rs`)

The widgets are translated arm-by-arm from the source.  Rust's `&mut self`
and `&mut Manager` become explicit state passing: a handler takes the widget
and manager state and returns `(Response, widget, manager)`.

The type-parameter child widget `W` (the popup content of `MenuButton`, the
entry `Column` of `SubMenu`) is abstract in the source; it is embedded as its
identity data plus its `send` behavior as a function on the manager state. -/

/-- An abstract child widget: subtree id range `[firstId, id]`, on-screen
rectangle, and `send` behavior.  Its internal state is not tracked (only its
effect on the manager and its response matter to the parent widgets). -/
structure ChildWidget (M : Type) where
  firstId : Nat
  id : Nat
  rect : Rect
  send : Mgr → Nat → Event → Response M × Mgr

/-- `MenuButton<W>` (`menu.rs` lines 28–36): core rect, label, popup child,
the `opening` flag, `popup_id`, plus the configured id data and the
disabled flag read by `send`. -/
structure MenuButton (M : Type) where
  firstId : Nat
  id : Nat
  rect : Rect
  label : String
  popup : ChildWidget M
  opening : Bool
  popupId : Option Nat
  disabled : Bool

/-- Modelled from the spec: `WidgetCore::is_ancestor_of` (kas core, not under
`src/`) — membership of the target id in the widget's subtree id range
(§4.1: "descend only into the child subtree whose id-range contains the
target id").  The orientation of the range — descendants precede the widget's
own id — is the one forced by the routing tests in the source's `send`
implementations (see the C4 theorems). -/
def MenuButton.isAncestorOf {M : Type} (b : MenuButton M) (t : Nat) : Bool :=
  decide (b.firstId ≤ t ∧ t ≤ b.id)

/-- `MenuButton::open_menu` (`menu.rs` 51–60). -/
def MenuButton.openMenu {M : Type} (b : MenuButton M) (mgr : Mgr) : MenuButton M × Mgr :=
  match b.popupId with
  | Option.some _ => (b, mgr)
  | Option.none =>
    let (wid, mgr2) := mgr.addPopup { id := b.popup.id, parent := b.id, direction := .down }
    ({ b with popupId := Option.some wid }, mgr2)

/-- `MenuButton::close_menu` (`menu.rs` 61–66). -/
def MenuButton.closeMenu {M : Type} (b : MenuButton M) (mgr : Mgr) : MenuButton M × Mgr :=
  match b.popupId with
  | Option.some wid => ({ b with popupId := Option.none }, mgr.closeWindow wid)
  | Option.none => (b, mgr)

/-- `<MenuButton as Handler>::handle` (`menu.rs` 102–154), arm by arm. -/
def MenuButton.handle {M : Type} (b : MenuButton M) (mgr : Mgr) (e : Event) :
    Response M × MenuButton M × Mgr :=
  match e with
  | .activate =>
    if b.popupId.isNone then
      let (b2, mgr2) := b.openMenu mgr
      (.none, b2, mgr2)
    else
      let (b2, mgr2) := b.closeMenu mgr
      (.none, b2, mgr2)
  | .pressStart source startId coord =>
    if b.isAncestorOf startId then
      if source.isPrimary then
        -- the source ignores request_grab's boolean result here
        let mgr2 := (mgr.requestGrab b.id source coord GrabMode.grab).2
        let mgr3 := mgr2.setGrabDepress source (Option.some startId)
        (.none, { b with opening := b.popupId.isNone }, mgr3)
      else
        (.none, b, mgr)
    else
      match b.popupId with
      | Option.some wid =>
        (.unhandled Event.none, { b with popupId := Option.none }, mgr.closeWindow wid)
      | Option.none => (.unhandled Event.none, b, mgr)
  | .pressMove source curId _coord _delta =>
    if curId == Option.some b.id then
      let (b2, mgr2) := b.openMenu mgr
      (.none, b2, mgr2.setGrabDepress source curId)
    else
      (.none, b, mgr)
  | .pressEnd _source endId coord =>
    if b.rect.contains coord then
      if endId == Option.some b.id && b.opening then
        let (b2, mgr2) := b.openMenu mgr
        (.none, b2, mgr2)
      else
        let (b2, mgr2) := b.closeMenu mgr
        (.none, b2, mgr2)
    else if b.popupId.isSome && b.popup.rect.contains coord then
      match endId with
      | Option.some hit =>
        let (r, mgr2) := b.popup.send mgr hit Event.activate
        let (b2, mgr3) := b.closeMenu mgr2
        (r, b2, mgr3)
      | Option.none => (.none, b, mgr)
    else
      (.none, b, mgr)
  | ev => (.unhandled ev, b, mgr)

/-- `<MenuButton as SendEvent>::send` (`menu.rs` 157–173).  The final branch
is the source's `Manager::handle_generic(self, mgr, event)`; `handle_generic`
is kas-core code not under `src/` and is modelled from the spec (§4.3: the
container handles the event itself only when no child claims it — the
generic path forwards to the widget's own handler). -/
def MenuButton.send {M : Type} (b : MenuButton M) (mgr : Mgr) (target : Nat) (e : Event) :
    Response M × MenuButton M × Mgr :=
  if b.disabled then
    (.unhandled e, b, mgr)
  else if target ≤ b.popup.id then
    let (r, mgr2) := b.popup.send mgr target e
    if r.isMsg then
      let (b2, mgr3) := b.closeMenu mgr2
      (r, b2, mgr3)
    else
      (r, b, mgr2)
  else
    b.handle mgr e

/-- `SubMenu<W>` (`menu.rs` 189–196): label, the entry `Column` child (kept
abstract as a `ChildWidget`), `popup_id`, plus configured id data and the
disabled flag. -/
structure SubMenu (M : Type) where
  firstId : Nat
  id : Nat
  rect : Rect
  label : String
  list : ChildWidget M
  popupId : Option Nat
  disabled : Bool

/-- `SubMenu::menu_is_open` (`menu.rs` 210–212). -/
def SubMenu.menuIsOpen {M : Type} (sm : SubMenu M) : Bool :=
  sm.popupId.isSome

/-- `SubMenu::open_menu` (`menu.rs` 213–222). -/
def SubMenu.openMenu {M : Type} (sm : SubMenu M) (mgr : Mgr) : SubMenu M × Mgr :=
  match sm.popupId with
  | Option.some _ => (sm, mgr)
  | Option.none =>
    let (wid, mgr2) := mgr.addPopup { id := sm.list.id, parent := sm.id, direction := .down }
    ({ sm with popupId := Option.some wid }, mgr2)

/-- `SubMenu::close_menu` (`menu.rs` 223–228). -/
def SubMenu.closeMenu {M : Type} (sm : SubMenu M) (mgr : Mgr) : SubMenu M × Mgr :=
  match sm.popupId with
  | Option.some wid => ({ sm with popupId := Option.none }, mgr.closeWindow wid)
  | Option.none => (sm, mgr)

/-- `<SubMenu as Handler>::handle` (`menu.rs` 264–275): `Activate` and
`OpenPopup` open the menu when it is closed (and do nothing when it is
already open); everything else is returned as `Unhandled`. -/
def SubMenu.handle {M : Type} (sm : SubMenu M) (mgr : Mgr) (e : Event) :
    Response M × SubMenu M × Mgr :=
  match e with
  | .activate =>
    if sm.popupId.isNone then
      let (sm2, mgr2) := sm.openMenu mgr
      (.none, sm2, mgr2)
    else
      (.none, sm, mgr)
  | .openPopup =>
    if sm.popupId.isNone then
      let (sm2, mgr2) := sm.openMenu mgr
      (.none, sm2, mgr2)
    else
      (.none, sm, mgr)
  | ev => (.unhandled ev, sm, mgr)

/-- `<SubMenu as SendEvent>::send` (`menu.rs` 278–293).  As for `MenuButton`,
the final branch is `Manager::handle_generic`, modelled as the widget's own
handler. -/
def SubMenu.send {M : Type} (sm : SubMenu M) (mgr : Mgr) (target : Nat) (e : Event) :
    Response M × SubMenu M × Mgr :=
  if sm.disabled then
    (.unhandled e, sm, mgr)
  else if target ≤ sm.list.id then
    let (r, mgr2) := sm.list.send mgr target e
    if r.isMsg then
      let (sm2, mgr3) := sm.closeMenu mgr2
      (r, sm2, mgr3)
    else
      (r, sm, mgr2)
  else
    sm.handle mgr e

/-- `MenuBar<D, W>` (`menu.rs` 313–319): the `List` of sub-menus with the
container's own id `barId`, the `opening` flag, plus configured id data and
the disabled flag. -/
structure MenuBar (M : Type) where
  firstId : Nat
  id : Nat
  barId : Nat
  rect : Rect
  bar : List (SubMenu M)
  opening : Bool
  disabled : Bool

/-- Modelled from the spec: `WidgetCore::is_ancestor_of` for the menu bar
(same subtree-range test as for `MenuButton`). -/
def MenuBar.isAncestorOf {M : Type} (mb : MenuBar M) (t : Nat) : Bool :=
  decide (mb.firstId ≤ t ∧ t ≤ mb.id)

/-- Modelled from the spec: `List::send` for the bar (kas core, §4.1/§4.3) —
"a container forwards to the child whose id-range contains the target id,
only handling the event itself if no child claims it"; the `List` container
has no behavior of its own, so a target claimed by no child bubbles as
`Unhandled`. -/
def barRoute {M : Type} : List (SubMenu M) → Mgr → Nat → Event →
    Response M × List (SubMenu M) × Mgr
  | [], mgr, _, e => (.unhandled e, [], mgr)
  | w :: ws, mgr, t, e =>
    if w.firstId ≤ t ∧ t ≤ w.id then
      let (r, w2, mgr2) := w.send mgr t e
      (r, w2 :: ws, mgr2)
    else
      let (r, ws2, mgr2) := barRoute ws mgr t e
      (r, w :: ws2, mgr2)

/-- The `for` loop in `MenuBar::handle`'s `PressStart` arm (`menu.rs`
356–366): find the sub-menu whose id equals `start_id`; if its menu is not
open, set the `opening` flag (returned boolean), open it and set press
focus to the bar; `break` after the first match either way. -/
def MenuBar.openAt {M : Type} (selfId : Nat) :
    List (SubMenu M) → Mgr → Nat → List (SubMenu M) × Mgr × Bool
  | [], mgr, _ => ([], mgr, false)
  | w :: ws, mgr, sid =>
    if w.id == sid then
      if !w.menuIsOpen then
        let (w2, mgr2) := w.openMenu mgr
        (w2 :: ws, mgr2.setPressFocus (Option.some selfId), true)
      else
        (w :: ws, mgr, false)
    else
      let (ws2, mgr2, fl) := MenuBar.openAt selfId ws mgr sid
      (w :: ws2, mgr2, fl)

/-- The `for` loop in `MenuBar::handle`'s `PressEnd` arm (`menu.rs`
398–403): close the menu of every sub-menu whose id equals the end id
(no `break` in the source). -/
def closeMatching {M : Type} : List (SubMenu M) → Mgr → Nat → List (SubMenu M) × Mgr
  | [], mgr, _ => ([], mgr)
  | w :: ws, mgr, tid =>
    if w.id == tid then
      let (w2, mgr2) := w.closeMenu mgr
      let (ws2, mgr3) := closeMatching ws mgr2 tid
      (w2 :: ws2, mgr3)
    else
      let (ws2, mgr2) := closeMatching ws mgr tid
      (w :: ws2, mgr2)

/-- The close-everything loops in `MenuBar::handle` (`menu.rs` 376–378 and
411–413). -/
def closeAllMenus {M : Type} : List (SubMenu M) → Mgr → List (SubMenu M) × Mgr
  | [], mgr => ([], mgr)
  | w :: ws, mgr =>
    let (w2, mgr2) := w.closeMenu mgr
    let (ws2, mgr3) := closeAllMenus ws mgr2
    (w2 :: ws2, mgr3)

mutual

/-- `<MenuBar as Handler>::handle` (`menu.rs` 342–419), arm by arm.
`handle` and `send` call each other in the source; the extra `fuel`
argument makes the mutual recursion structural, with `Option.none` as the
out-of-fuel marker (every theorem below supplies enough fuel that the
marker is never the result). -/
def MenuBar.handleF {M : Type} (fuel : Nat) (mb : MenuBar M) (mgr : Mgr) (e : Event) :
    Option (Response M × MenuBar M × Mgr) :=
  match fuel with
  | 0 => Option.none
  | Nat.succ f =>
    match e with
    | .pressStart source startId coord =>
      if mb.isAncestorOf startId then
        -- `source.is_primary() && mgr.request_grab(..)` short-circuits:
        -- the grab is only requested for a primary source
        if source.isPrimary then
          let (ok, mgr1) := mgr.requestGrab mb.id source coord GrabMode.grab
          if ok then
            let mgr2 := mgr1.setGrabDepress source (Option.some startId)
            let mb1 := { mb with opening := false }
            if mb.rect.contains coord then
              let (bar2, mgr3, fl) := MenuBar.openAt mb.id mb1.bar mgr2 startId
              Option.some (.none, { mb1 with bar := bar2, opening := fl }, mgr3)
            else
              MenuBar.sendF f mb1 mgr2 startId .openPopup
          else
            Option.some (.none, mb, mgr1)
        else
          Option.some (.none, mb, mgr)
      else
        let (bar2, mgr2) := closeAllMenus mb.bar mgr
        Option.some (.unhandled Event.none, { mb with bar := bar2 }, mgr2)
    | .pressMove source curId _coord _delta =>
      match curId with
      | Option.some cid =>
        if mb.isAncestorOf cid then
          let mgr2 := mgr.setGrabDepress source (Option.some cid)
          MenuBar.sendF f mb mgr2 cid .openPopup
        else
          Option.some (.none, mb, mgr)
      | Option.none => Option.some (.none, mb, mgr)
    | .pressEnd _source endId coord =>
      match endId with
      | Option.some eid =>
        if mb.isAncestorOf eid then
          if mb.rect.contains coord then
            if !mb.opening then
              let (bar2, mgr2) := closeMatching mb.bar mgr eid
              Option.some (.none, { mb with bar := bar2 }, mgr2)
            else
              Option.some (.none, mb, mgr)
          else
            MenuBar.sendF f mb mgr eid .activate
        else
          let (bar2, mgr2) := closeAllMenus mb.bar mgr
          Option.some (.none, { mb with bar := bar2 }, mgr2)
      | Option.none =>
        let (bar2, mgr2) := closeAllMenus mb.bar mgr
        Option.some (.none, { mb with bar := bar2 }, mgr2)
    | ev => Option.some (.unhandled ev, mb, mgr)

/-- `<MenuBar as SendEvent>::send` (`menu.rs` 423–437): a disabled bar
returns the event as `Unhandled`; a target inside the bar subtree is routed
through the `List`, and an `Unhandled` result is retried on the bar's own
handler; otherwise the bar handles the event itself. -/
def MenuBar.sendF {M : Type} (fuel : Nat) (mb : MenuBar M) (mgr : Mgr) (target : Nat)
    (e : Event) : Option (Response M × MenuBar M × Mgr) :=
  match fuel with
  | 0 => Option.none
  | Nat.succ f =>
    if mb.disabled then
      Option.some (.unhandled e, mb, mgr)
    else if target ≤ mb.barId then
      match barRoute mb.bar mgr target e with
      | (.unhandled ev, bar2, mgr2) => MenuBar.handleF f { mb with bar := bar2 } mgr2 ev
      | (r, bar2, mgr2) => Option.some (r, { mb with bar := bar2 }, mgr2)
    else
      MenuBar.handleF f mb mgr e

end

/-- Modelled from the spec: the manager-side frame around dispatching one
press event to the bar's handler — after a `PressEnd` the source's grab is
released unconditionally (§4.3). -/
def barDispatch {M : Type} (fuel : Nat) (mb : MenuBar M) (mgr : Mgr) (e : Event) :
    Option (MenuBar M × Mgr) := do
  let (_, mb2, mgr2) ← MenuBar.handleF fuel mb mgr e
  match e with
  | .pressEnd s _ _ => pure (mb2, mgr2.releaseGrab s)
  | _ => pure (mb2, mgr2)

/-! ## Window widgets (`src/src/widget/window.rs`) -/

/-- `SimpleWindow::len` (`window.rs` 104). -/
def simpleWindowLen : Nat := 1

/-- `SimpleWindow::get` (`window.rs` 105–110): `Some(&self.w)` at index 0,
`None` otherwise.  The child reference is represented by `Unit` (only its
existence matters here); a panic would be `Except.error`. -/
def simpleWindowGet (index : Nat) : Except Unit (Option Unit) :=
  Except.ok (if index = 0 then Option.some () else Option.none)

/-- `MessageBox::len` (`window.rs` 190). -/
def messageBoxLen : Nat := 0

/-- `MessageBox::get` (`window.rs` 191–193): the body is `unimplemented!()`,
which panics for every index — embedded as `Except.error`. -/
def messageBoxGet (_index : Nat) : Except Unit (Option Unit) :=
  Except.error ()

/-- The layout passes of the child widget `W` of `SimpleWindow`: the number
of constraint keys consumed by `init_constraints` and by `apply_constraints`
starting from key 0.  Both passes walk the same widget structure with the
same starting key, so the counts are attributes of the widget, deterministic
across calls. -/
structure ChildLayout where
  initKeys : Nat
  applyKeys : Nat

/-- The `SimpleWindow` fields involved in the pass-ordering contract
(`window.rs` 37–43): the recorded `key_end` and the child widget. -/
structure SimpleWindowL where
  keyEnd : Nat
  w : ChildLayout

/-- `SimpleWindow::new` sets `key_end: 0` (`window.rs` 66–77). -/
def SimpleWindowL.new (w : ChildLayout) : SimpleWindowL :=
  { keyEnd := 0, w }

/-- `SimpleWindow::configure_widgets` (`window.rs` 125–140): runs pass 1,
records `key_end`, runs pass 2 and asserts both passes consumed the same
number of constraint keys (`assert_eq!(self.key_end, apply_key)`); the
assertion failure is embedded as `Except.error`. -/
def SimpleWindowL.configureWidgets (s : SimpleWindowL) : Except Unit SimpleWindowL :=
  let keyEnd := s.w.initKeys
  let applyKey := s.w.applyKeys
  if keyEnd = applyKey then
    Except.ok { s with keyEnd := keyEnd }
  else
    Except.error ()

/-- `SimpleWindow::resize` (`window.rs` 142–150): re-runs pass 2 and asserts
`assert_eq!(self.key_end, apply_key, "resize called without
configure_widgets")`. -/
def SimpleWindowL.resize (s : SimpleWindowL) : Except Unit SimpleWindowL :=
  let applyKey := s.w.applyKeys
  if s.keyEnd = applyKey then
    Except.ok s
  else
    Except.error ()

/-! ## SizeRules (kas `layout::SizeRules`, modelled from the spec) -/

/-- Modelled from the spec: `SizeRules` (§3) — per-axis minimum and
preferred sizes, a stretch policy (represented by its ordering rank,
combined by maximum), and the margins on the two sides of the axis. -/
structure SizeRules where
  min : Nat
  pref : Nat
  m0 : Nat
  m1 : Nat
  stretch : Nat
deriving DecidableEq

/-- Modelled from the spec: cross-axis combination — "combining across the
cross axis takes the componentwise maximum" (§3). -/
def SizeRules.maxRules (a b : SizeRules) : SizeRules :=
  { min := max a.min b.min
    pref := max a.pref b.pref
    m0 := max a.m0 b.m0
    m1 := max a.m1 b.m1
    stretch := max a.stretch b.stretch }

/-- Modelled from the spec: main-axis combination — "combining two adjacent
SizeRules along the layout's main axis sums minima/preferred and takes the
pairwise maximum of margins at the shared boundary" (§3): the shared-boundary
margin is folded into the summed sizes, the outer margins are kept, and the
stretch policies combine by maximum. -/
def SizeRules.appended (a b : SizeRules) : SizeRules :=
  { min := a.min + b.min + max a.m1 b.m0
    pref := a.pref + b.pref + max a.m1 b.m0
    m0 := a.m0
    m1 := b.m1
    stretch := max a.stretch b.stretch }

/-! ## Widget-id assignment (claim C4)

The id-assignment pass lives in the kas core, not under `src/`.  Two
assignments are defined: `assignT`, in the orientation the source's routing
code requires (each widget numbered after its descendants), and
`assignPreT`, a second definition following the spec's words (each widget
numbered before its descendants), used to compare the two (the spec's
orientation makes the source's routing test misroute — see the C4
counterexample). -/

mutual

/-- A widget-tree node; only the shape matters for id assignment. -/
inductive WTree where
  | node : WForest → WTree

/-- A forest of sibling subtrees, in visual order. -/
inductive WForest where
  | nil : WForest
  | cons : WTree → WForest → WForest

end

mutual

/-- A widget tree annotated with the id assigned to each node. -/
inductive ATree where
  | node : Nat → AForest → ATree

/-- An annotated forest. -/
inductive AForest where
  | nil : AForest
  | cons : ATree → AForest → AForest

end

mutual

def sizeT : WTree → Nat
  | .node cs => sizeF cs + 1

def sizeF : WForest → Nat
  | .nil => 0
  | .cons t f => sizeT t + sizeF f

end

mutual

/-- Configuration-time id assignment in the orientation forced by the
source: ids are issued depth-first with each widget numbered after all of
its descendants, so a widget's own id closes its subtree's id range (this is
what makes `id <= child.id()` in the `send` implementations and the
subtree-range ancestor test correct). -/
def assignT : WTree → Nat → ATree × Nat
  | .node cs, n =>
    let (acs, m) := assignF cs n
    (.node m acs, m + 1)

def assignF : WForest → Nat → AForest × Nat
  | .nil, n => (.nil, n)
  | .cons t f, n =>
    let (a, m) := assignT t n
    let (af, m2) := assignF f m
    (.cons a af, m2)

end

mutual

/-- Modelled from the spec: the id assignment in the spec's stated
orientation — "a widget's id numerically precedes all of its descendants'
ids and follows all preceding siblings' subtrees" (§3): the widget takes the
next id and its descendants are numbered after it. -/
def assignPreT : WTree → Nat → ATree × Nat
  | .node cs, n =>
    let (acs, m) := assignPreF cs (n + 1)
    (.node n acs, m)

def assignPreF : WForest → Nat → AForest × Nat
  | .nil, n => (.nil, n)
  | .cons t f, n =>
    let (a, m) := assignPreT t n
    let (af, m2) := assignPreF f m
    (.cons a af, m2)

end

/-- The id at the root of an annotated tree (`widget.id()`). -/
def rootId : ATree → Nat
  | .node i _ => i

mutual

/-- All ids in a subtree, listed in child-subtrees-then-self order. -/
def idsT : ATree → List Nat
  | .node i cs => idsF cs ++ [i]

def idsF : AForest → List Nat
  | .nil => []
  | .cons a f => idsT a ++ idsF f

end

mutual

/-- All subtrees of an annotated tree, the tree itself included. -/
def subT : ATree → List ATree
  | .node i cs => .node i cs :: subF cs

def subF : AForest → List ATree
  | .nil => []
  | .cons a f => subT a ++ subF f

end

/-- The sibling subtrees of a forest, in order. -/
def toListF : AForest → List ATree
  | .nil => []
  | .cons a f => a :: toListF f

/-- The routing test of `MenuButton::send`, `SubMenu::send` and
`MenuBar::send` (`menu.rs` 163, 283, 428): descend into the child when
`id <= child.id()`. -/
def routesToChild (target childId : Nat) : Bool :=
  decide (target ≤ childId)

/-- The two-widget tree (a parent with a single child) used to compare the
two id orientations. -/
def tUnary : WTree :=
  WTree.node (WForest.cons (WTree.node WForest.nil) WForest.nil)

/-! ## Concrete widgets for the menu scenarios -/

/-- The primary pointer source used in the scenarios. -/
def srcPrimary : PressSource := ⟨0, true⟩

/-- Header rectangle of sub-menu A. -/
def rectA : Rect := { pos := ⟨0, 0⟩, size := ⟨10, 10⟩ }

/-- Header rectangle of sub-menu B. -/
def rectB : Rect := { pos := ⟨10, 0⟩, size := ⟨10, 10⟩ }

/-- Rectangle of the whole menu bar. -/
def rectBar : Rect := { pos := ⟨0, 0⟩, size := ⟨100, 10⟩ }

/-- Popup-content rectangle of sub-menu A. -/
def rectListA : Rect := { pos := ⟨0, 10⟩, size := ⟨10, 30⟩ }

/-- Popup-content rectangle of sub-menu B. -/
def rectListB : Rect := { pos := ⟨10, 10⟩, size := ⟨10, 30⟩ }

/-- Entry column of sub-menu A: ids 0 (entry) and 1 (column); its entries
claim nothing (inert `send`).  It is never hit in the C1 scenario. -/
def entriesA : ChildWidget Nat :=
  { firstId := 0, id := 1, rect := rectListA, send := fun mgr _ e => (.unhandled e, mgr) }

/-- Entry column of sub-menu B: ids 3 (entry) and 4 (column). -/
def entriesB : ChildWidget Nat :=
  { firstId := 3, id := 4, rect := rectListB, send := fun mgr _ e => (.unhandled e, mgr) }

/-- Sub-menu A, closed: subtree ids 0–2, header id 2. -/
def subA : SubMenu Nat :=
  { firstId := 0, id := 2, rect := rectA, label := "A", list := entriesA
    popupId := Option.none, disabled := false }

/-- Sub-menu B, closed: subtree ids 3–5, header id 5. -/
def subB : SubMenu Nat :=
  { firstId := 3, id := 5, rect := rectB, label := "B", list := entriesB
    popupId := Option.none, disabled := false }

/-- A menu bar holding sub-menus A and B: `List` container id 6, bar id 7. -/
def barEx : MenuBar Nat :=
  { firstId := 0, id := 7, barId := 6, rect := rectBar, bar := [subA, subB]
    opening := false, disabled := false }

/-- The C1 gesture sequence: press A's header, release on it (click-to-open
leaves A open and the manager releases the grab), then press B's header. -/
def c1Run : Option (MenuBar Nat × Mgr) := do
  let (mb1, mgr1) ← barDispatch 5 barEx Mgr.empty (.pressStart srcPrimary 2 ⟨5, 5⟩)
  let (mb2, mgr2) ← barDispatch 5 mb1 mgr1 (.pressEnd srcPrimary (Option.some 2) ⟨5, 5⟩)
  barDispatch 5 mb2 mgr2 (.pressStart srcPrimary 5 ⟨15, 5⟩)

/-- An abstract popup child for a `MenuButton`: ids 0 (content) and 1
(popup root), inert `send`. -/
def popupChildEx : ChildWidget Nat :=
  { firstId := 0, id := 1, rect := rectListA, send := fun mgr _ e => (.unhandled e, mgr) }

/-- A `MenuButton` with its menu open (popup window id 0): subtree ids 0–2. -/
def buttonOpenEx : MenuButton Nat :=
  { firstId := 0, id := 2, rect := rectA, label := "menu", popup := popupChildEx
    opening := false, popupId := Option.some 0, disabled := false }

/-- Sub-menu A with its menu open (popup window id 0). -/
def subAOpen : SubMenu Nat :=
  { subA with popupId := Option.some 0 }

/-- The events that fall to `MenuButton::handle`'s catch-all arm
(`menu.rs` 151). -/
def menuButtonMisc : Event → Bool
  | .none => true
  | .openPopup => true
  | .handleUpdate _ => true
  | _ => false

/-- The events that fall to `MenuBar::handle`'s catch-all arm
(`menu.rs` 417). -/
def menuBarMisc : Event → Bool
  | .none => true
  | .activate => true
  | .openPopup => true
  | .handleUpdate _ => true
  | _ => false

/-- `buttonOpenEx` with the `opening` flag set (freshly opened this
gesture). -/
def buttonOpenOpening : MenuButton Nat :=
  { buttonOpenEx with opening := true }

/-- A disabled `MenuButton`. -/
def buttonDisabled : MenuButton Nat :=
  { buttonOpenEx with disabled := true }

/-- A disabled `SubMenu`. -/
def subADisabled : SubMenu Nat :=
  { subA with disabled := true }

/-- A disabled `MenuBar`. -/
def barDisabled : MenuBar Nat :=
  { barEx with disabled := true }

/-! ## Theorems -/

theorem grabCount_requestGrab_le (mgr : Mgr) (w : Nat) (s t : PressSource) (c : Coord)
    (m : GrabMode) (h : grabCount mgr t ≤ 1) :
    grabCount ((mgr.requestGrab w s c m).2) t ≤ 1 := by
  unfold Mgr.requestGrab
  cases hfind : mgr.findGrab s with
  | some g => simpa [grabCount] using h
  | none =>
    unfold Mgr.findGrab at hfind
    rw [List.find?_eq_none] at hfind
    simp only [grabCount, List.filter_append, List.length_append]
    by_cases hts : t = s
    · subst hts
      have hzero : mgr.grabs.filter (fun g => decide (g.1 = t)) = [] := by
        rw [List.filter_eq_nil_iff]
        exact hfind
      simp [hzero, List.filter]
    · have hone : ([(s, w, m)] : List (PressSource × Nat × GrabMode)).filter
          (fun g => decide (g.1 = t)) = [] := by
        rw [List.filter_eq_nil_iff]
        intro a ha
        rw [List.mem_singleton] at ha
        subst ha
        simp only [decide_eq_true_eq]
        exact fun hh => hts hh.symm
      rw [hone]
      simpa [grabCount] using h

theorem grabCount_releaseGrab_le (mgr : Mgr) (s t : PressSource)
    (h : grabCount mgr t ≤ 1) : grabCount (mgr.releaseGrab s) t ≤ 1 := by
  unfold grabCount at h ⊢
  unfold Mgr.releaseGrab
  have hsub : List.Sublist
      ((mgr.grabs.filter (fun g => !decide (g.1 = s))).filter (fun g => decide (g.1 = t)))
      (mgr.grabs.filter (fun g => decide (g.1 = t))) :=
    (List.filter_sublist _).filter _
  exact le_trans hsub.length_le h

theorem grabCount_foldl_le (ops : List GrabOp) (mgr : Mgr)
    (h : ∀ s, grabCount mgr s ≤ 1) :
    ∀ s, grabCount (ops.foldl applyGrabOp mgr) s ≤ 1 := by
  induction ops generalizing mgr with
  | nil => exact h
  | cons op rest ih =>
    intro s
    refine ih (applyGrabOp mgr op) (fun t => ?_) s
    cases op with
    | request w s2 c m => exact grabCount_requestGrab_le mgr w s2 t c m (h t)
    | release s2 => exact grabCount_releaseGrab_le mgr s2 t (h t)

/-- C3 — Grab exclusivity: starting from the initial manager state, any
sequence of `request_grab`/release operations leaves at most one grab entry
per pointer source; `request_grab` on a source that already has a grab
returns `false` and leaves the manager unchanged; `request_grab` on a free
source returns `true` and installs exactly the grab `(source, widget, mode)`. -/
theorem grab_exclusivity :
    (∀ (ops : List GrabOp) (s : PressSource), grabCount (applyGrabOps ops) s ≤ 1)
    ∧ (∀ (mgr : Mgr) (w : Nat) (s : PressSource) (c : Coord) (m : GrabMode)
        (g : PressSource × Nat × GrabMode),
        mgr.findGrab s = Option.some g → mgr.requestGrab w s c m = (false, mgr))
    ∧ (∀ (mgr : Mgr) (w : Nat) (s : PressSource) (c : Coord) (m : GrabMode),
        mgr.findGrab s = Option.none →
          (mgr.requestGrab w s c m).1 = true ∧
          (mgr.requestGrab w s c m).2.grabs = mgr.grabs ++ [(s, w, m)]) := by
  refine ⟨?_, ?_, ?_⟩
  · intro ops s
    refine grabCount_foldl_le ops Mgr.empty (fun t => ?_) s
    simp [grabCount, Mgr.empty]
  · intro mgr w s c m g hg
    unfold Mgr.requestGrab
    rw [hg]
  · intro mgr w s c m hn
    unfold Mgr.requestGrab
    rw [hn]
    exact ⟨rfl, rfl⟩

/-- Witness for C3 at a concrete state: the source `⟨0, true⟩` holds a grab,
and a second `request_grab` for it fails and leaves the state unchanged. -/
theorem grab_exclusivity_witness :
    Mgr.findGrab mgrHolding ⟨0, true⟩ = Option.some (⟨0, true⟩, 5, GrabMode.grab) ∧
    Mgr.requestGrab mgrHolding 7 ⟨0, true⟩ ⟨1, 1⟩ GrabMode.grab = (false, mgrHolding) :=
  ⟨rfl, grab_exclusivity.2.1 mgrHolding 7 ⟨0, true⟩ ⟨1, 1⟩ GrabMode.grab
    (⟨0, true⟩, 5, GrabMode.grab) rfl⟩

/-- C1 — Menu-bar exclusivity is violated by the code: in a bar with
sub-menus A and B, the gesture sequence "press A's header, release on it,
press B's header" (each event dispatched to `MenuBar::handle`, the grab
released on `PressEnd`) ends with BOTH menus open (`popup_id` is `Some` on
A and on B) and popup stack depth 2 — the `PressStart` arm opens B without
closing A. -/
theorem c1_exclusivity_violated :
    c1Run.map (fun p => (p.1.bar.map SubMenu.popupId, p.2.popups.length))
      = Option.some ([Option.some 0, Option.some 1], 2) := rfl

/-- C2 — counterexample: `MenuButton::handle` answers a `PressStart` whose
`start_id` lies outside the widget's subtree with
`Response::Unhandled(Event::None)` — the event inside the returned
`Unhandled` is not the event that was dispatched. -/
theorem c2_counterexample :
    (buttonOpenEx.handle Mgr.empty (Event.pressStart srcPrimary 99 ⟨50, 50⟩)).1
      = Response.unhandled Event.none ∧
    Event.pressStart srcPrimary 99 ⟨50, 50⟩ ≠ Event.none :=
  ⟨rfl, by decide⟩

/-- C2 (amended) — events that fall to the catch-all arm of
`MenuButton::handle` or `MenuBar::handle` are returned inside `Unhandled`
unchanged; a `PressStart` whose `start_id` is outside the widget's subtree
is instead answered with `Unhandled(Event::None)`. -/
theorem c2_unhandled_roundtrip :
    (∀ (M : Type) (b : MenuButton M) (mgr : Mgr) (e : Event),
        menuButtonMisc e = true → (b.handle mgr e).1 = Response.unhandled e)
    ∧ (∀ (M : Type) (fuel : Nat) (mb : MenuBar M) (mgr : Mgr) (e : Event),
        menuBarMisc e = true →
          MenuBar.handleF (fuel + 1) mb mgr e = Option.some (Response.unhandled e, mb, mgr))
    ∧ (∀ (M : Type) (b : MenuButton M) (mgr : Mgr) (s : PressSource) (sid : Nat) (c : Coord),
        b.isAncestorOf sid = false →
          (b.handle mgr (Event.pressStart s sid c)).1 = Response.unhandled Event.none) := by
  refine ⟨?_, ?_, ?_⟩
  · intro M b mgr e he
    cases e <;> simp_all [menuButtonMisc, MenuButton.handle]
  · intro M fuel mb mgr e he
    cases e <;> simp_all [menuBarMisc, MenuBar.handleF]
  · intro M b mgr s sid c h
    simp only [MenuButton.handle, h]
    cases hp : b.popupId <;> simp

/-- Witness for the C2 amended theorem: `OpenPopup` falls to the catch-all
of `MenuButton::handle` and round-trips unchanged. -/
theorem c2_unhandled_roundtrip_witness :
    menuButtonMisc Event.openPopup = true ∧
    (buttonOpenEx.handle Mgr.empty Event.openPopup).1 = Response.unhandled Event.openPopup :=
  ⟨rfl, c2_unhandled_roundtrip.1 Nat buttonOpenEx Mgr.empty Event.openPopup rfl⟩

mutual

theorem assignT_spec (t : WTree) (n : Nat) :
    (assignT t n).2 = n + sizeT t ∧ idsT (assignT t n).1 = List.range' n (sizeT t) := by
  cases t with
  | node cs =>
    have ih := assignF_spec cs n
    cases hA : assignF cs n with
    | mk acs m =>
      rw [hA] at ih
      obtain ⟨ih1, ih2⟩ := ih
      simp only at ih1 ih2
      constructor
      · simp only [assignT, hA, sizeT]
        omega
      · simp only [assignT, hA, idsT, sizeT, ih2]
        rw [List.range'_1_concat]
        rw [ih1]

theorem assignF_spec (f : WForest) (n : Nat) :
    (assignF f n).2 = n + sizeF f ∧ idsF (assignF f n).1 = List.range' n (sizeF f) := by
  cases f with
  | nil => simp [assignF, sizeF, idsF]
  | cons t f2 =>
    have iht := assignT_spec t n
    cases hT : assignT t n with
    | mk a m =>
      rw [hT] at iht
      obtain ⟨iht1, iht2⟩ := iht
      simp only at iht1 iht2
      subst iht1
      have ihf := assignF_spec f2 (n + sizeT t)
      cases hF : assignF f2 (n + sizeT t) with
      | mk af m2 =>
        rw [hF] at ihf
        obtain ⟨ihf1, ihf2⟩ := ihf
        simp only at ihf1 ihf2
        constructor
        · simp only [assignF, hT, hF, sizeF]
          omega
        · simp only [assignF, hT, hF, idsF, sizeF, iht2, ihf2]
          have happ := List.range'_append n (sizeT t) (sizeF f2) 1
          rw [one_mul] at happ
          rw [happ, Nat.add_comm (sizeF f2) (sizeT t)]

end

/-- The root id of an assigned tree is the last id of its range. -/
theorem rootId_assignT (t : WTree) (n : Nat) :
    rootId (assignT t n).1 + 1 = n + sizeT t := by
  cases t with
  | node cs =>
    have h := assignF_spec cs n
    cases hA : assignF cs n with
    | mk acs m =>
      rw [hA] at h
      obtain ⟨h1, -⟩ := h
      simp only at h1
      simp only [assignT, hA, rootId, sizeT]
      omega

/-- Every id in an assigned subtree is at most the root's id. -/
theorem le_rootId_of_mem (t : WTree) (n : Nat) (x : Nat)
    (hx : x ∈ idsT (assignT t n).1) : x ≤ rootId (assignT t n).1 := by
  obtain ⟨-, hids⟩ := assignT_spec t n
  rw [hids, List.mem_range'_1] at hx
  have hr := rootId_assignT t n
  omega

mutual

theorem rootId_mem_idsT (A B : ATree) (h : B ∈ subT A) : rootId B ∈ idsT A := by
  cases A with
  | node i cs =>
    simp only [subT, List.mem_cons] at h
    cases h with
    | inl he =>
      subst he
      simp [idsT, rootId]
    | inr hm =>
      have := rootId_mem_idsF cs B hm
      simp only [idsT]
      exact List.mem_append_left _ this

theorem rootId_mem_idsF (f : AForest) (B : ATree) (h : B ∈ subF f) : rootId B ∈ idsF f := by
  cases f with
  | nil => simp [subF] at h
  | cons a f2 =>
    simp only [subF, List.mem_append] at h
    cases h with
    | inl hm =>
      have := rootId_mem_idsT a B hm
      simp only [idsF]
      exact List.mem_append_left _ this
    | inr hm =>
      have := rootId_mem_idsF f2 B hm
      simp only [idsF]
      exact List.mem_append_right _ this

end

mutual

theorem subT_assigned (t : WTree) (n : Nat) (B : ATree) (h : B ∈ subT (assignT t n).1) :
    ∃ t2 n2, (assignT t2 n2).1 = B := by
  cases t with
  | node cs =>
    cases hA : assignF cs n with
    | mk acs m =>
      rw [show (assignT (WTree.node cs) n).1 = ATree.node m acs by simp [assignT, hA]] at h
      simp only [subT, List.mem_cons] at h
      cases h with
      | inl he =>
        refine ⟨WTree.node cs, n, ?_⟩
        simp [assignT, hA, he]
      | inr hm =>
        have hm2 : B ∈ subF (assignF cs n).1 := by
          rw [hA]
          exact hm
        exact subF_assigned cs n B hm2

theorem subF_assigned (f : WForest) (n : Nat) (B : ATree) (h : B ∈ subF (assignF f n).1) :
    ∃ t2 n2, (assignT t2 n2).1 = B := by
  cases f with
  | nil =>
    simp [assignF, subF] at h
  | cons t f2 =>
    cases hT : assignT t n with
    | mk a m =>
      cases hF : assignF f2 m with
      | mk af m2 =>
        rw [show (assignF (WForest.cons t f2) n).1 = AForest.cons a af by
          simp [assignF, hT, hF]] at h
        simp only [subF, List.mem_append] at h
        cases h with
        | inl hm =>
          have hm2 : B ∈ subT (assignT t n).1 := by
            rw [hT]
            exact hm
          exact subT_assigned t n B hm2
        | inr hm =>
          have hm2 : B ∈ subF (assignF f2 m).1 := by
            rw [hF]
            exact hm
          exact subF_assigned f2 m B hm2

end

/-- Ids of a sibling tree of a forest occur among the forest's ids. -/
theorem mem_idsF_of_toListF (af : AForest) (Y : ATree) (hY : Y ∈ toListF af)
    (y : Nat) (hy : y ∈ idsT Y) : y ∈ idsF af := by
  cases af with
  | nil => simp [toListF] at hY
  | cons a f2 =>
    simp only [toListF, List.mem_cons] at hY
    cases hY with
    | inl he =>
      subst he
      simp only [idsF]
      exact List.mem_append_left _ hy
    | inr hm =>
      simp only [idsF]
      exact List.mem_append_right _ (mem_idsF_of_toListF f2 Y hm y hy)

/-- Sibling subtrees of an assigned forest have strictly increasing,
disjoint id ranges, in order. -/
theorem siblings_increasing (f : WForest) (n : Nat) :
    List.Pairwise (fun X Y => ∀ x ∈ idsT X, ∀ y ∈ idsT Y, x < y)
      (toListF (assignF f n).1) := by
  cases f with
  | nil => simp [assignF, toListF]
  | cons t f2 =>
    cases hT : assignT t n with
    | mk a m =>
      have iht := assignT_spec t n
      rw [hT] at iht
      obtain ⟨iht1, iht2⟩ := iht
      simp only at iht1 iht2
      subst iht1
      cases hF : assignF f2 (n + sizeT t) with
      | mk af m2 =>
        have ihf := assignF_spec f2 (n + sizeT t)
        rw [hF] at ihf
        obtain ⟨-, ihf2⟩ := ihf
        simp only at ihf2
        rw [show (assignF (WForest.cons t f2) n).1 = AForest.cons a af by
          simp [assignF, hT, hF]]
        simp only [toListF, List.pairwise_cons]
        constructor
        · intro Y hY x hx y hy
          have hxa : x ∈ List.range' n (sizeT t) := by
            rw [← iht2]
            exact hx
          have hya : y ∈ List.range' (n + sizeT t) (sizeF f2) := by
            rw [← ihf2]
            exact mem_idsF_of_toListF af Y hY y hy
          rw [List.mem_range'_1] at hxa hya
          omega
        · have := siblings_increasing f2 (n + sizeT t)
          rw [hF] at this
          exact this

/-- Every widget subtree has at least one id. -/
theorem sizeT_pos (t : WTree) : 1 ≤ sizeT t := by
  cases t with
  | node cs => simp [sizeT]

/-- C4 (amended) — widget-id ordering in the orientation the source's
routing code requires: in an assigned tree, every descendant's id is at most
its ancestor's id (a widget's id follows its descendants'); the id ranges of
successive sibling subtrees are disjoint and increasing; and for the
source's single-child `send` pattern, the test `id <= child.id()` routes a
target id that lies in the widget's subtree into the child exactly when the
target belongs to the child's subtree. -/
theorem c4_id_ordering :
    (∀ (t : WTree) (n : Nat) (A B : ATree),
        A ∈ subT (assignT t n).1 → B ∈ subT A → rootId B ≤ rootId A)
    ∧ (∀ (f : WForest) (n : Nat),
        List.Pairwise (fun X Y => ∀ x ∈ idsT X, ∀ y ∈ idsT Y, x < y)
          (toListF (assignF f n).1))
    ∧ (∀ (c : WTree) (n : Nat) (x : Nat),
        x ∈ idsT (assignT (WTree.node (WForest.cons c WForest.nil)) n).1 →
          (routesToChild x (rootId (assignT c n).1) = true ↔ x ∈ idsT (assignT c n).1)) := by
  refine ⟨?_, siblings_increasing, ?_⟩
  · intro t n A B hA hB
    obtain ⟨t2, n2, h2⟩ := subT_assigned t n A hA
    have hmem : rootId B ∈ idsT A := rootId_mem_idsT A B hB
    rw [← h2] at hmem ⊢
    exact le_rootId_of_mem t2 n2 _ hmem
  · intro c n x hx
    cases hC : assignT c n with
    | mk ac m =>
      have ihc := assignT_spec c n
      rw [hC] at ihc
      obtain ⟨ihc1, ihc2⟩ := ihc
      simp only at ihc1 ihc2
      subst ihc1
      have hroot := rootId_assignT c n
      rw [hC] at hroot
      simp only at hroot
      rw [show (assignT (WTree.node (WForest.cons c WForest.nil)) n).1
            = ATree.node (n + sizeT c) (AForest.cons ac AForest.nil) by
          simp [assignT, assignF, hC]] at hx
      simp only [idsT, idsF, List.append_nil] at hx
      rw [ihc2] at hx
      rw [List.mem_append, List.mem_range'_1, List.mem_singleton] at hx
      simp only [idsT]  -- keep goal shape
      rw [show idsT ac = List.range' n (sizeT c) from ihc2]
      rw [List.mem_range'_1]
      unfold routesToChild
      have hpos := sizeT_pos c
      constructor
      · intro hle
        rw [decide_eq_true_eq] at hle
        omega
      · intro hin
        rw [decide_eq_true_eq]
        omega

/-- Witness for the C4 amended theorem at the two-widget tree assigned from
0: the child (id 0) precedes the parent (id 1), and the routing test routes
target 0 into the child and target 1 (the parent itself) not. -/
theorem c4_id_ordering_witness :
    ((assignT tUnary 0).1 ∈ subT (assignT tUnary 0).1 ∧
      ATree.node 0 AForest.nil ∈ subT (assignT tUnary 0).1 ∧
      rootId (ATree.node 0 AForest.nil) ≤ rootId (assignT tUnary 0).1) ∧
    ((1 : Nat) ∈ idsT (assignT (WTree.node (WForest.cons tUnary WForest.nil)) 0).1 ∧
      (routesToChild 1 (rootId (assignT tUnary 0).1) = true ↔
        (1 : Nat) ∈ idsT (assignT tUnary 0).1)) := by
  have h1 : (assignT tUnary 0).1 ∈ subT (assignT tUnary 0).1 := by
    simp [tUnary, assignT, assignF, subT, subF]
  have h2 : ATree.node 0 AForest.nil ∈ subT (assignT tUnary 0).1 := by
    simp [tUnary, assignT, assignF, subT, subF]
  have h3 : (1 : Nat) ∈ idsT (assignT (WTree.node (WForest.cons tUnary WForest.nil)) 0).1 := by
    simp [tUnary, assignT, assignF, idsT, idsF]
  exact ⟨⟨h1, h2, c4_id_ordering.1 tUnary 0 _ _ h1 h2⟩,
    ⟨h3, c4_id_ordering.2.2 tUnary 0 1 h3⟩⟩

/-- C4 — counterexample: under the spec's id orientation (parent numbered
before its descendants, `assignPreT`), the two-widget tree gives the parent
id 0 and the child id 1 — the claim's ordering `A.id() ≤ B.id()` holds — but
the source's routing test `id <= child.id()` then routes the parent's own
id 0 into the child even though 0 is not among the child's subtree ids, so
the claimed routing consequence is false. -/
theorem c4_counterexample :
    assignPreT tUnary 0
      = (ATree.node 0 (AForest.cons (ATree.node 1 AForest.nil) AForest.nil), 2) ∧
    routesToChild 0 (rootId (ATree.node 1 AForest.nil)) = true ∧
    (0 : Nat) ∉ idsT (ATree.node 1 AForest.nil) := by
  refine ⟨rfl, rfl, ?_⟩
  simp [idsT, idsF]

/-- C5 — counterexample: `SubMenu::handle` on `Activate` with the menu
already open leaves it open (`popup_id` stays `Some 0`), it does not close
it. -/
theorem c5_counterexample :
    (subAOpen.handle Mgr.empty Event.activate).2.1.popupId = Option.some 0 ∧
    Option.some 0 ≠ (Option.none : Option Nat) :=
  ⟨rfl, by decide⟩

/-- C5 (amended) — `MenuButton::handle` toggles on `Activate` (closed opens,
open closes); `SubMenu::handle` on `Activate` opens a closed menu but leaves
an open menu open. -/
theorem c5_activate_toggle :
    (∀ (M : Type) (b : MenuButton M) (mgr : Mgr),
        b.popupId = Option.none →
          ((b.handle mgr Event.activate).2.1.popupId).isSome = true)
    ∧ (∀ (M : Type) (b : MenuButton M) (mgr : Mgr) (w : Nat),
        b.popupId = Option.some w →
          (b.handle mgr Event.activate).2.1.popupId = Option.none)
    ∧ (∀ (M : Type) (sm : SubMenu M) (mgr : Mgr),
        sm.popupId = Option.none →
          ((sm.handle mgr Event.activate).2.1.popupId).isSome = true)
    ∧ (∀ (M : Type) (sm : SubMenu M) (mgr : Mgr) (w : Nat),
        sm.popupId = Option.some w →
          (sm.handle mgr Event.activate).2.1.popupId = Option.some w) := by
  refine ⟨?_, ?_, ?_, ?_⟩
  · intro M b mgr h
    simp [MenuButton.handle, MenuButton.openMenu, h]
  · intro M b mgr w h
    simp [MenuButton.handle, MenuButton.closeMenu, h]
  · intro M sm mgr h
    simp [SubMenu.handle, SubMenu.openMenu, h]
  · intro M sm mgr w h
    simp [SubMenu.handle, h]

/-- Witness for the C5 amended theorem: the open `MenuButton` closes on
`Activate`; the open `SubMenu` stays open. -/
theorem c5_activate_toggle_witness :
    buttonOpenEx.popupId = Option.some 0 ∧
    (buttonOpenEx.handle Mgr.empty Event.activate).2.1.popupId = Option.none ∧
    subAOpen.popupId = Option.some 0 ∧
    (subAOpen.handle Mgr.empty Event.activate).2.1.popupId = Option.some 0 :=
  ⟨rfl, c5_activate_toggle.2.1 Nat buttonOpenEx Mgr.empty 0 rfl, rfl,
   c5_activate_toggle.2.2.2 Nat subAOpen Mgr.empty 0 rfl⟩

/-- C6 — counterexample: a `PressEnd` released outside both the button and
its popup leaves an open menu OPEN (`popup_id` stays `Some 0`); the claim
says any such release closes the menu. -/
theorem c6_counterexample :
    (buttonOpenEx.handle Mgr.empty
        (Event.pressEnd srcPrimary (Option.some 9) ⟨50, 50⟩)).2.1.popupId = Option.some 0 ∧
    Option.some 0 ≠ (Option.none : Option Nat) :=
  ⟨rfl, by decide⟩

/-- C6 (amended) — `MenuButton::handle` on `PressEnd`: (a) released over the
button with `end_id == self.id()` and the `opening` flag set, an open menu
is left open unchanged; (b) released over the popup's content with a hit id,
`Activate` is forwarded to the popup child and the menu is then closed, the
child's response returned; (c) released over the button otherwise, the menu
is closed; (d) released outside both the button and the popup, the state is
unchanged (an open menu stays open); (e) released over the popup without a
hit id, the state is also unchanged. -/
theorem c6_pressend_cases :
    (∀ (M : Type) (b : MenuButton M) (mgr : Mgr) (s : PressSource) (eid : Option Nat)
        (c : Coord) (w : Nat),
        b.rect.contains c = true → eid = Option.some b.id → b.opening = true →
        b.popupId = Option.some w →
          (b.handle mgr (Event.pressEnd s eid c)).2.1.popupId = Option.some w)
    ∧ (∀ (M : Type) (b : MenuButton M) (mgr : Mgr) (s : PressSource) (hit : Nat)
        (c : Coord) (w : Nat),
        b.rect.contains c = false → b.popupId = Option.some w →
        b.popup.rect.contains c = true →
          b.handle mgr (Event.pressEnd s (Option.some hit) c)
            = ((b.popup.send mgr hit Event.activate).1,
               { b with popupId := Option.none },
               Mgr.closeWindow (b.popup.send mgr hit Event.activate).2 w))
    ∧ (∀ (M : Type) (b : MenuButton M) (mgr : Mgr) (s : PressSource) (eid : Option Nat)
        (c : Coord),
        b.rect.contains c = true → ¬(eid = Option.some b.id ∧ b.opening = true) →
          (b.handle mgr (Event.pressEnd s eid c)).2.1.popupId = Option.none)
    ∧ (∀ (M : Type) (b : MenuButton M) (mgr : Mgr) (s : PressSource) (eid : Option Nat)
        (c : Coord),
        b.rect.contains c = false →
        (b.popupId.isSome && b.popup.rect.contains c) = false →
          b.handle mgr (Event.pressEnd s eid c) = (Response.none, b, mgr))
    ∧ (∀ (M : Type) (b : MenuButton M) (mgr : Mgr) (s : PressSource) (c : Coord) (w : Nat),
        b.rect.contains c = false → b.popupId = Option.some w →
        b.popup.rect.contains c = true →
          b.handle mgr (Event.pressEnd s Option.none c) = (Response.none, b, mgr)) := by
  refine ⟨?_, ?_, ?_, ?_, ?_⟩
  · intro M b mgr s eid c w hc heid hop hpop
    simp [MenuButton.handle, hc, heid, hop, hpop, MenuButton.openMenu]
  · intro M b mgr s hit c w hc hpop hpc
    simp [MenuButton.handle, hc, hpop, hpc, MenuButton.closeMenu]
  · intro M b mgr s eid c hc hno
    have hcase : (eid == Option.some b.id && b.opening) = false := by
      cases h2 : b.opening with
      | false => simp
      | true =>
        have h1 : eid ≠ Option.some b.id := fun hh => hno ⟨hh, h2⟩
        simp [h1]
    cases hp : b.popupId with
    | none => simp [MenuButton.handle, hc, hcase, MenuButton.closeMenu, hp]
    | some w => simp [MenuButton.handle, hc, hcase, MenuButton.closeMenu, hp]
  · intro M b mgr s eid c hc hnp
    simp [MenuButton.handle, hc, hnp]
  · intro M b mgr s c w hc hpop hpc
    simp [MenuButton.handle, hc, hpop, hpc]

/-- Witness for the C6 amended theorem, case (a): click-to-open release over
the button leaves the fresh menu open. -/
theorem c6_pressend_cases_witness :
    Rect.contains buttonOpenOpening.rect ⟨5, 5⟩ = true ∧
    buttonOpenOpening.opening = true ∧
    buttonOpenOpening.popupId = Option.some 0 ∧
    (buttonOpenOpening.handle Mgr.empty
        (Event.pressEnd srcPrimary (Option.some 2) ⟨5, 5⟩)).2.1.popupId = Option.some 0 :=
  ⟨rfl, rfl, rfl,
   c6_pressend_cases.1 Nat buttonOpenOpening Mgr.empty srcPrimary (Option.some 2) ⟨5, 5⟩ 0
     rfl rfl rfl rfl⟩

/-- C7 — `SimpleWindow::get` is total (`Some` child below `len`, `None` at
or above), but `MessageBox::get` is `unimplemented!()` and panics already at
index 0 (`len() = 0`), instead of returning `None`. -/
theorem c7_get_totality :
    (∀ i : Nat, i < simpleWindowLen → simpleWindowGet i = Except.ok (Option.some ()))
    ∧ (∀ i : Nat, simpleWindowLen ≤ i → simpleWindowGet i = Except.ok Option.none)
    ∧ messageBoxGet 0 = Except.error () := by
  refine ⟨?_, ?_, rfl⟩
  · intro i hi
    simp only [simpleWindowLen] at hi
    have h0 : i = 0 := by omega
    subst h0
    rfl
  · intro i hi
    simp only [simpleWindowLen] at hi
    have hne : ¬(i = 0) := by omega
    simp [simpleWindowGet, hne]

/-- Witness for C7: both `SimpleWindow::get` branches at concrete indices. -/
theorem c7_get_totality_witness :
    (0 < simpleWindowLen ∧ simpleWindowGet 0 = Except.ok (Option.some ())) ∧
    (simpleWindowLen ≤ 1 ∧ simpleWindowGet 1 = Except.ok Option.none) :=
  ⟨⟨by decide, c7_get_totality.1 0 (by decide)⟩,
   ⟨by decide, c7_get_totality.2.1 1 (by decide)⟩⟩

/-- C8 — `SimpleWindow::resize` asserts loudly when the recorded constraint
key count does not match the count produced by `apply_constraints` (the
"resize called without configure_widgets" assertion), and after a successful
`configure_widgets` the assertion in `resize` cannot fire. -/
theorem c8_resize_assertion :
    (∀ s : SimpleWindowL, s.keyEnd ≠ s.w.applyKeys → s.resize = Except.error ())
    ∧ (∀ s s2 : SimpleWindowL, s.configureWidgets = Except.ok s2 →
        s2.resize = Except.ok s2) := by
  constructor
  · intro s h
    simp [SimpleWindowL.resize, h]
  · intro s s2 h
    unfold SimpleWindowL.configureWidgets at h
    by_cases heq : s.w.initKeys = s.w.applyKeys
    · simp only [heq, if_pos] at h
      cases h
      simp [SimpleWindowL.resize, heq]
    · simp [heq] at h

/-- Witness for C8: a window resized without configuration trips the
assertion; a configured window resizes cleanly. -/
theorem c8_resize_assertion_witness :
    ((SimpleWindowL.new ⟨3, 5⟩).keyEnd ≠ (SimpleWindowL.new ⟨3, 5⟩).w.applyKeys ∧
      (SimpleWindowL.new ⟨3, 5⟩).resize = Except.error ()) ∧
    (SimpleWindowL.configureWidgets ⟨0, ⟨4, 4⟩⟩ = Except.ok ⟨4, ⟨4, 4⟩⟩ ∧
      SimpleWindowL.resize ⟨4, ⟨4, 4⟩⟩ = Except.ok ⟨4, ⟨4, 4⟩⟩) :=
  ⟨⟨by decide, c8_resize_assertion.1 (SimpleWindowL.new ⟨3, 5⟩) (by decide)⟩,
   ⟨rfl, c8_resize_assertion.2 ⟨0, ⟨4, 4⟩⟩ ⟨4, ⟨4, 4⟩⟩ rfl⟩⟩

/-- C9 — SizeRules combination algebra: cross-axis max-combination is
commutative and associative; main-axis sum-combination (with the pairwise
maximum of the shared-boundary margins) is associative. -/
theorem c9_sizerules_algebra :
    (∀ a b : SizeRules, a.maxRules b = b.maxRules a)
    ∧ (∀ a b c : SizeRules, (a.maxRules b).maxRules c = a.maxRules (b.maxRules c))
    ∧ (∀ a b c : SizeRules, (a.appended b).appended c = a.appended (b.appended c)) := by
  refine ⟨?_, ?_, ?_⟩
  · rintro ⟨a1, a2, a3, a4, a5⟩ ⟨b1, b2, b3, b4, b5⟩
    simp only [SizeRules.maxRules, SizeRules.mk.injEq]
    exact ⟨Nat.max_comm a1 b1, Nat.max_comm a2 b2, Nat.max_comm a3 b3,
      Nat.max_comm a4 b4, Nat.max_comm a5 b5⟩
  · rintro ⟨a1, a2, a3, a4, a5⟩ ⟨b1, b2, b3, b4, b5⟩ ⟨c1, c2, c3, c4, c5⟩
    simp only [SizeRules.maxRules, SizeRules.mk.injEq]
    exact ⟨Nat.max_assoc a1 b1 c1, Nat.max_assoc a2 b2 c2, Nat.max_assoc a3 b3 c3,
      Nat.max_assoc a4 b4 c4, Nat.max_assoc a5 b5 c5⟩
  · rintro ⟨a1, a2, a3, a4, a5⟩ ⟨b1, b2, b3, b4, b5⟩ ⟨c1, c2, c3, c4, c5⟩
    simp only [SizeRules.appended, SizeRules.mk.injEq]
    refine ⟨?_, ?_, trivial, trivial, Nat.max_assoc a5 b5 c5⟩
    · generalize max a4 b3 = k1
      generalize max b4 c3 = k2
      omega
    · generalize max a4 b3 = k1
      generalize max b4 c3 = k2
      omega

/-- C10 — disabled menu widgets are inert: `send` on a disabled
`MenuButton`, `SubMenu` or `MenuBar` returns `Unhandled` carrying exactly
the dispatched event, with the widget state and the manager state
unchanged. -/
theorem c10_disabled_inert :
    (∀ (M : Type) (b : MenuButton M) (mgr : Mgr) (t : Nat) (e : Event),
        b.disabled = true → b.send mgr t e = (Response.unhandled e, b, mgr))
    ∧ (∀ (M : Type) (sm : SubMenu M) (mgr : Mgr) (t : Nat) (e : Event),
        sm.disabled = true → sm.send mgr t e = (Response.unhandled e, sm, mgr))
    ∧ (∀ (M : Type) (fuel : Nat) (mb : MenuBar M) (mgr : Mgr) (t : Nat) (e : Event),
        mb.disabled = true →
          MenuBar.sendF (fuel + 1) mb mgr t e = Option.some (Response.unhandled e, mb, mgr)) := by
  refine ⟨?_, ?_, ?_⟩
  · intro M b mgr t e h
    simp [MenuButton.send, h]
  · intro M sm mgr t e h
    simp [SubMenu.send, h]
  · intro M fuel mb mgr t e h
    simp [MenuBar.sendF, h]

/-- Witness for C10 at the three disabled widgets. -/
theorem c10_disabled_inert_witness :
    buttonDisabled.send Mgr.empty 0 Event.activate
      = (Response.unhandled Event.activate, buttonDisabled, Mgr.empty) ∧
    subADisabled.send Mgr.empty 0 Event.activate
      = (Response.unhandled Event.activate, subADisabled, Mgr.empty) ∧
    MenuBar.sendF 1 barDisabled Mgr.empty 0 Event.activate
      = Option.some (Response.unhandled Event.activate, barDisabled, Mgr.empty) :=
  ⟨c10_disabled_inert.1 Nat buttonDisabled Mgr.empty 0 Event.activate rfl,
   c10_disabled_inert.2.1 Nat subADisabled Mgr.empty 0 Event.activate rfl,
   c10_disabled_inert.2.2 Nat 0 barDisabled Mgr.empty 0 Event.activate rfl⟩

end Kas
